import Mathlib

/-!
Shallow embedding of the Store-Test repository (Flask/SQLAlchemy e-commerce API).

The embedding translates `src/api/models.py` and `src/api/controllers.py`:
the relational store becomes an explicit `DB` record of row lists, each HTTP
handler becomes a pure function `DB → args → Result × DB` returning the HTTP
status the client sees together with the committed database state.

Two translation conventions matter throughout and are noted at each use site:

* Columns declared `nullable=False` that the controller never assigns are
  modelled as `Option` fields holding `none`; SQLAlchemy raises
  `IntegrityError` when such a row is flushed/committed, which surfaces as
  HTTP 500 with the transaction rolled back.

* `flask_restful.abort(code, ...)` raises a `werkzeug` `HTTPException`,
  which is a subclass of `Exception`.  In every handler whose `abort` calls
  sit inside a `try:` block with a blanket `except Exception` handler
  (Cart.get/post/put/delete, Users.put/delete), the raised 4xx is caught and
  re-raised as `abort(500, ...)` after a rollback, so the client observes
  HTTP 500 and an unchanged database.  Handlers whose aborts sit outside any
  `try:` (Orders.post validation, Categories.delete, Users.post,
  `abort_if_not_found`) surface their 4xx statuses unchanged.

Prices (`db.Float`) are modelled as rationals; no claim depends on binary
floating-point rounding.
-/

/-- `UserModel` (models.py): id, username, email, password hash. -/
structure User where
  id : Nat
  username : String
  email : String
  password : String
deriving DecidableEq

/-- `CategoryModel` (models.py): id, name, optional description. -/
structure Category where
  id : Nat
  name : String
  description : Option String
deriving DecidableEq

/-- `ProductModel` (models.py): id, name, price, stock, category_id.
`stock` is an `Int` because nothing in the schema itself prevents negative
values; the invariants claimed about it are proved, not assumed. -/
structure Product where
  id : Nat
  name : String
  price : ℚ
  stock : Int
  categoryId : Option Nat
deriving DecidableEq

/-- `CartModel` (models.py): one row per (user, product) pair. -/
structure CartItem where
  id : Nat
  userId : Nat
  productId : Nat
  quantity : Int
deriving DecidableEq

/-- `OrderModel` (models.py).  `total_amount` is `nullable=False` but
`Orders.post` never assigns it, hence the `Option` (see module comment). -/
structure Order where
  id : Nat
  userId : Nat
  totalAmount : Option ℚ
  status : String
deriving DecidableEq

/-- `OrderItemModel` (models.py).  `price_at_time` is `nullable=False` but
`Orders.post` never assigns it, hence the `Option`. -/
structure OrderItem where
  id : Nat
  orderId : Nat
  productId : Nat
  quantity : Int
  priceAtTime : Option ℚ
deriving DecidableEq

/-- The committed relational state, one list per table, plus the
auto-increment counter used for fresh primary keys. -/
structure DB where
  users : List User
  categories : List Category
  products : List Product
  cartItems : List CartItem
  orders : List Order
  orderItems : List OrderItem
  nextId : Nat
deriving DecidableEq

/-- `db.session.get(UserModel, user_id)`: primary-key lookup. -/
def findUser (s : DB) (uid : Nat) : Option User :=
  s.users.find? (fun u => u.id == uid)

/-- `db.session.get(ProductModel, product_id)`: primary-key lookup. -/
def findProduct (s : DB) (pid : Nat) : Option Product :=
  s.products.find? (fun p => p.id == pid)

/-- `db.session.get(CategoryModel, category_id)`: primary-key lookup. -/
def findCategory (s : DB) (cid : Nat) : Option Category :=
  s.categories.find? (fun c => c.id == cid)

/-- `CartModel.query.filter_by(user_id=..., product_id=...).first()`. -/
def findCartItem (s : DB) (uid pid : Nat) : Option CartItem :=
  s.cartItems.find? (fun c => c.userId == uid && c.productId == pid)

/-- `CartModel.validate_quantity` (models.py lines 92-101):
`MIN_QUANTITY = 1 ≤ quantity ≤ MAX_QUANTITY = 99`; out-of-range assignment
raises `ValueError`. -/
def cartQuantityValid (q : Int) : Bool :=
  1 ≤ q && q ≤ 99

/-- `CartModel.is_valid` (models.py lines 110-117): false when the product
row is gone or its stock is below the recorded quantity. -/
def itemIsValid (s : DB) (it : CartItem) : Bool :=
  match findProduct s it.productId with
  | none => false
  | some p => it.quantity ≤ p.stock

/-- One line of the cart payload assembled by `Cart.get`. -/
structure CartLine where
  itemId : Nat
  productId : Nat
  quantity : Int
  subtotal : ℚ
deriving DecidableEq

/-- `CartModel.subtotal` packaged with the item identifiers, as `Cart.get`
serialises it.  The `none` branch is unreachable for items that passed
`is_valid`, which already requires the product to exist. -/
def cartLineOf (s : DB) (it : CartItem) : CartLine :=
  match findProduct s it.productId with
  | some p =>
      { itemId := it.id, productId := it.productId, quantity := it.quantity,
        subtotal := p.price * (it.quantity : ℚ) }
  | none =>
      { itemId := it.id, productId := it.productId, quantity := it.quantity,
        subtotal := 0 }

/-- Response of `Cart.get`. -/
structure CartGetResult where
  status : Nat
  items : List CartLine
  total : ℚ
  itemCount : Nat
deriving DecidableEq

/-- `Cart.get` (controllers.py lines 413-475).

The loop appends to `removed_items` every row with `is_valid == False`
(product gone, or stock below quantity) and later deletes those rows; the
quantity-adjustment branch (`if item.product and item.product.stock <
item.quantity`) can only run on rows that passed `is_valid`, which already
guarantees `stock >= quantity`, so it never fires and no quantity is ever
adjusted.  The `abort(404)` for a missing user is raised inside the `try:`
and converted to HTTP 500 by the blanket `except Exception` handler. -/
def cartGet (s : DB) (uid : Nat) : CartGetResult × DB :=
  match findUser s uid with
  | none => ({ status := 500, items := [], total := 0, itemCount := 0 }, s)
  | some _ =>
      let userItems := s.cartItems.filter (fun it => it.userId == uid)
      let kept := userItems.filter (fun it => itemIsValid s it)
      let lines := kept.map (cartLineOf s)
      ({ status := 200, items := lines,
         total := (lines.map (fun l => l.subtotal)).sum,
         itemCount := lines.length },
       { s with cartItems :=
           s.cartItems.filter (fun it => it.userId != uid || itemIsValid s it) })

/-- Parsed body of `Cart.post`: product_id, quantity, replace flag. -/
structure CartPostArgs where
  productId : Nat
  quantity : Int
  replace : Bool
deriving DecidableEq

/-- Response of `Cart.post` / `Cart.put`: HTTP status and, on success, the
persisted quantity echoed back in `cart_item.quantity`. -/
structure CartPostResult where
  status : Nat
  quantity : Option Int
deriving DecidableEq

/-- `cart_item.quantity = q` persisted through the session (matched by
primary key). -/
def updateCartQuantity (s : DB) (itemId : Nat) (q : Int) : DB :=
  { s with cartItems :=
      s.cartItems.map (fun c => if c.id = itemId then { c with quantity := q } else c) }

/-- `Cart.post` (controllers.py lines 477-550).

All `abort` calls of this handler (404 missing user, 404 missing product,
400 out of stock, 400 cart cap, and the 400 issued for a `ValueError` from
`validate_quantity`) are raised inside the outer `try:`, so the blanket
`except Exception` handler rolls back and re-raises them as HTTP 500.
`MAX_CART_ITEMS = 20` (Cart constructor); the cap check runs only when no
row exists for the (user, product) pair.  On success the commit persists the
row and the handler returns 200 (updated) or 201 (created). -/
def cartPost (s : DB) (uid : Nat) (args : CartPostArgs) : CartPostResult × DB :=
  match findUser s uid with
  | none => ({ status := 500, quantity := none }, s)
  | some _ =>
  match findProduct s args.productId with
  | none => ({ status := 500, quantity := none }, s)
  | some p =>
  if p.stock ≤ 0 then ({ status := 500, quantity := none }, s)
  else
    let currentItems := (s.cartItems.filter (fun c => c.userId == uid)).length
    match findCartItem s uid args.productId with
    | some it =>
        let newQ := if args.replace then args.quantity else it.quantity + args.quantity
        if cartQuantityValid newQ then
          ({ status := 200, quantity := some newQ }, updateCartQuantity s it.id newQ)
        else ({ status := 500, quantity := none }, s)
    | none =>
        if 20 ≤ currentItems then ({ status := 500, quantity := none }, s)
        else if cartQuantityValid args.quantity then
          ({ status := 201, quantity := some args.quantity },
           { s with
               cartItems := s.cartItems ++
                 [{ id := s.nextId, userId := uid, productId := args.productId,
                    quantity := args.quantity }],
               nextId := s.nextId + 1 })
        else ({ status := 500, quantity := none }, s)

/-- `Cart.put` (controllers.py lines 552-596).  Its aborts (404 missing
user, 404 missing cart row, 400 `ValueError`) are likewise inside the
`try:` and surface as HTTP 500. -/
def cartPut (s : DB) (uid pid : Nat) (q : Int) : CartPostResult × DB :=
  match findUser s uid with
  | none => ({ status := 500, quantity := none }, s)
  | some _ =>
  match findCartItem s uid pid with
  | none => ({ status := 500, quantity := none }, s)
  | some it =>
      if cartQuantityValid q then
        ({ status := 200, quantity := some q }, updateCartQuantity s it.id q)
      else ({ status := 500, quantity := none }, s)

/-- Plain message-plus-status response. -/
structure SimpleResult where
  status : Nat
  message : String
deriving DecidableEq

/-- `Cart.delete` (controllers.py lines 598-632).  With a `product_id` it
deletes that row; without one it clears the cart, answering
"Cart is already empty" when nothing was deleted.  Its aborts are inside
the `try:` and surface as HTTP 500. -/
def cartDelete (s : DB) (uid : Nat) (pid : Option Nat) : SimpleResult × DB :=
  match findUser s uid with
  | none => ({ status := 500, message := "error" }, s)
  | some _ =>
      match pid with
      | some pid0 =>
          match findCartItem s uid pid0 with
          | none => ({ status := 500, message := "error" }, s)
          | some it =>
              ({ status := 200, message := "Item removed from cart successfully" },
               { s with cartItems := s.cartItems.filter (fun c => c.id != it.id) })
      | none =>
          if (s.cartItems.filter (fun c => c.userId == uid)).isEmpty then
            ({ status := 200, message := "Cart is already empty" }, s)
          else
            ({ status := 200, message := "All items removed from cart successfully" },
             { s with cartItems := s.cartItems.filter (fun c => c.userId != uid) })

/-- Python `str.strip()`: drop leading and trailing whitespace.  (Defined
over character lists so that concrete instances evaluate inside proofs.) -/
def stripChars (l : List Char) : List Char :=
  ((l.dropWhile Char.isWhitespace).reverse.dropWhile Char.isWhitespace).reverse

/-- Split a character list at the first occurrence of `c`: the parts
before and after it, `none` when `c` does not occur. -/
def breakAtFirst (c : Char) : List Char → Option (List Char × List Char)
  | [] => none
  | a :: t =>
      if a = c then some ([], t)
      else match breakAtFirst c t with
        | none => none
        | some (pre, post) => some (a :: pre, post)

/-- Split a character list at the last occurrence of `c` (the semantics of
Python `rsplit(c, 1)`). -/
def breakAtLast (c : Char) (l : List Char) : Option (List Char × List Char) :=
  match breakAtFirst c l.reverse with
  | none => none
  | some (post, pre) => some (pre.reverse, post.reverse)

/-- Python `'..' in email`. -/
def hasDoubleDot : List Char → Bool
  | [] => false
  | [_] => false
  | a :: b :: t => (a = '.' && b = '.') || hasDoubleDot (b :: t)

/-- Character class `[a-zA-Z0-9._%+-]` of the local part of the email
regex in `Users.validate_email`. -/
def isLocalChar (c : Char) : Bool :=
  c.isAlphanum || c == '.' || c == '_' || c == '%' || c == '+' || c == '-'

/-- Character class `[a-zA-Z0-9.-]` of the domain part of the same regex. -/
def isDomainChar (c : Char) : Bool :=
  c.isAlphanum || c == '.' || c == '-'

/-- Backtracking match of `[a-zA-Z0-9.-]+\.[a-zA-Z]{2,}$` against the text
after the `@`: it succeeds exactly when the segment after the final dot is
alphabetic of length at least 2 and the (dot-allowing) part before that
dot is nonempty and drawn from the domain class.  A split at any earlier
dot cannot work, because the tail would then itself contain a dot, which
the alphabetic class excludes. -/
def domainRegexMatch (d : List Char) : Bool :=
  match breakAtLast '.' d with
  | none => false
  | some (stem, tld) =>
      2 ≤ tld.length && tld.all Char.isAlpha && !stem.isEmpty && stem.all isDomainChar

/-- `re.match` of the anchored pattern
`^[a-zA-Z0-9._%+-]+@[a-zA-Z0-9.-]+\.[a-zA-Z]{2,}$`: a nonempty run of
local-class characters up to the (necessarily unique, since neither class
admits it) `@`, then the domain-and-TLD tail. -/
def emailRegexMatch (email : List Char) : Bool :=
  match breakAtFirst '@' email with
  | none => false
  | some (lpart, rest) =>
      !lpart.isEmpty && lpart.all isLocalChar && !(rest.contains '@') &&
        domainRegexMatch rest

/-- `Users.validate_email` (controllers.py lines 47-83): length bounds on
the whole address, on the local part (split at the last `@`, as
`rsplit('@', 1)` does, whose `ValueError` on a missing `@` returns false)
and on the domain, then the consecutive-dot, edge-dot and edge-hyphen
checks, and finally the regex. -/
def validate_email (email : String) : Bool :=
  if email.isEmpty then false
  else if 254 < email.length then false
  else
    match breakAtLast '@' email.data with
    | none => false
    | some (lpart, domain) =>
        if 64 < lpart.length || 255 < domain.length then false
        else if hasDoubleDot email.data then false
        else if lpart.head? == some '.' || lpart.getLast? == some '.' then false
        else if domain.head? == some '-' || domain.getLast? == some '-' then false
        else emailRegexMatch email.data

/-- Stand-in for `werkzeug.generate_password_hash`, which the spec treats
as an opaque one-way hash; no claim inspects the stored value. -/
def hashPassword (pw : String) : String :=
  "pbkdf2-sha256$" ++ pw

/-- Parsed body of `Users.post`: all three fields are required. -/
structure UserArgs where
  username : String
  email : String
  password : String
deriving DecidableEq

/-- `Users.post` (controllers.py lines 99-146).  Every rejection is a plain
`return {...}, 400` issued before the `try:` block, so the statuses are
genuine 400s; nothing is persisted before the final commit. -/
def usersPost (s : DB) (args : UserArgs) : SimpleResult × DB :=
  if (stripChars args.username.data).isEmpty then
    ({ status := 400, message := "Username is required" }, s)
  else if args.username.length < 3 then
    ({ status := 400, message := "Username must be at least 3 characters long" }, s)
  else if (s.users.find? (fun u => u.username == args.username)).isSome then
    ({ status := 400, message := "Username already exists" }, s)
  else if !(validate_email args.email) then
    ({ status := 400, message := "Invalid email format" }, s)
  else if (s.users.find? (fun u => u.email == args.email)).isSome then
    ({ status := 400, message := "Email already exists" }, s)
  else if args.password.length < 6 then
    ({ status := 400, message := "Password must be at least 6 characters long" }, s)
  else
    ({ status := 201, message := "User created successfully" },
     { s with
         users := s.users ++
           [{ id := s.nextId, username := args.username, email := args.email,
              password := hashPassword args.password }],
         nextId := s.nextId + 1 })

/-- Parsed body of `Users.put`: every field optional; `args.get(field)` in
Python also treats an empty string as absent (falsy), which `strOpt`
reproduces. -/
structure UserPutArgs where
  username : Option String
  email : Option String
  password : Option String
deriving DecidableEq

/-- Python truthiness of an optional string: `None` and `""` both count as
not provided. -/
def strOpt (o : Option String) : Option String :=
  match o with
  | some v => if v.isEmpty then none else some v
  | none => none

/-- The username branch of `Users.put` (controllers.py lines 153-162):
when a username is provided, reject stripped length below 2 or a username
taken by a different user, otherwise assign it.  `.error st` stands for an
`abort(st, ...)` raised inside the `try:` block. -/
def userPutUsername (s : DB) (uid : Nat) (u : User) (args : UserPutArgs) :
    Except Nat User :=
  match strOpt args.username with
  | none => Except.ok u
  | some un =>
      if (stripChars un.data).length < 2 then Except.error 400
      else
        match s.users.find? (fun v => v.username == un) with
        | some v => if v.id ≠ uid then Except.error 400
                    else Except.ok { u with username := un }
        | none => Except.ok { u with username := un }

/-- The email branch of `Users.put` (controllers.py lines 164-174): only
the regex is checked here (not the stricter `validate_email`), then the
taken-by-another-user check. -/
def userPutEmail (s : DB) (uid : Nat) (u : User) (args : UserPutArgs) :
    Except Nat User :=
  match strOpt args.email with
  | none => Except.ok u
  | some em =>
      if !(emailRegexMatch em.data) then Except.error 400
      else
        match s.users.find? (fun v => v.email == em) with
        | some v => if v.id ≠ uid then Except.error 400
                    else Except.ok { u with email := em }
        | none => Except.ok { u with email := em }

/-- The password branch of `Users.put` (controllers.py lines 176-179):
a provided password shorter than 6 characters is rejected with
`abort(400, ...)`, otherwise its hash is stored. -/
def userPutPassword (u : User) (args : UserPutArgs) : Except Nat User :=
  match strOpt args.password with
  | none => Except.ok u
  | some pw =>
      if pw.length < 6 then Except.error 400
      else Except.ok { u with password := hashPassword pw }

/-- Body of the `try:` block of `Users.put` (controllers.py lines 152-189),
threading the successively updated user record through the three field
branches. -/
def usersPutBody (s : DB) (uid : Nat) (u : User) (args : UserPutArgs) :
    Except Nat User :=
  match userPutUsername s uid u args with
  | Except.error st => Except.error st
  | Except.ok u1 =>
      match userPutEmail s uid u1 args with
      | Except.error st => Except.error st
      | Except.ok u2 => userPutPassword u2 args

/-- `Users.put` (controllers.py lines 148-193).  `abort_if_not_found` runs
before the `try:`, so a missing user is a genuine 404; every `abort(400)`
raised inside the block is an `HTTPException`, caught by the blanket
`except Exception` handler, which rolls the session back (discarding any
fields already assigned) and re-raises as HTTP 500. -/
def usersPut (s : DB) (uid : Nat) (args : UserPutArgs) : SimpleResult × DB :=
  match findUser s uid with
  | none => ({ status := 404, message := "not found" }, s)
  | some u =>
      match usersPutBody s uid u args with
      | Except.error _ =>
          ({ status := 500, message := "An error occurred while updating user" }, s)
      | Except.ok u2 =>
          ({ status := 200, message := "User updated successfully" },
           { s with users := s.users.map (fun v => if v.id = uid then u2 else v) })

/-- `Users.delete` (controllers.py lines 195-209).  The missing-user 404 is
raised before the `try:`; the `abort(400, "Cannot delete user with existing
orders")` is raised inside it and therefore surfaces as HTTP 500.  Deleting
a user cascades to their cart rows (`cascade='all, delete-orphan'`). -/
def usersDelete (s : DB) (uid : Nat) : SimpleResult × DB :=
  match findUser s uid with
  | none => ({ status := 404, message := "not found" }, s)
  | some _ =>
      if (s.orders.filter (fun o => o.userId == uid)).isEmpty then
        ({ status := 200, message := "User deleted successfully" },
         { s with
             users := s.users.filter (fun v => v.id != uid),
             cartItems := s.cartItems.filter (fun c => c.userId != uid) })
      else
        ({ status := 500, message := "An error occurred while deleting user" }, s)

/-- `Categories.delete` (controllers.py lines 290-302).  Both the 404 and
the `abort(400, "Cannot delete category with associated products")` are
raised before the `try:` block, so these statuses reach the client
unchanged. -/
def categoriesDelete (s : DB) (cid : Nat) : SimpleResult × DB :=
  match findCategory s cid with
  | none => ({ status := 404, message := "not found" }, s)
  | some _ =>
      if (s.products.filter (fun p => p.categoryId == some cid)).isEmpty then
        ({ status := 200, message := "Category deleted successfully" },
         { s with categories := s.categories.filter (fun c => c.id != cid) })
      else
        ({ status := 400, message := "Cannot delete category with associated products" }, s)

/-- One line of an order request body: `{'product_id': ..., 'quantity': ...}`. -/
structure OrderReqItem where
  productId : Nat
  quantity : Int
deriving DecidableEq

/-- Response of `Orders.post`. -/
structure OrdersPostResult where
  status : Nat
  orderId : Option Nat
deriving DecidableEq

/-- The per-line loop of `Orders.post` (controllers.py lines 682-704),
acting on the in-transaction session state: resolve the product (404 on
failure), reject non-positive quantities (400), reject when stock is below
the requested quantity (400), then record an `OrderItemModel` — whose
`price_at_time` the controller never assigns, hence `none` — and decrement
the product stock in place, so a later line for the same product sees the
already-reduced stock.  An `.error st` is an `abort(st, ...)` raised after
`db.session.rollback()`; these aborts are not inside any `try:`. -/
def processLines (s : DB) (orderId : Nat) : List OrderReqItem → Except Nat DB
  | [] => Except.ok s
  | it :: rest =>
      match findProduct s it.productId with
      | none => Except.error 404
      | some p =>
          if it.quantity ≤ 0 then Except.error 400
          else if p.stock < it.quantity then Except.error 400
          else
            let s1 :=
              { s with
                  orderItems := s.orderItems ++
                    [{ id := s.nextId, orderId := orderId, productId := p.id,
                       quantity := it.quantity, priceAtTime := none }],
                  products := s.products.map
                    (fun q => if q.id = p.id then { q with stock := q.stock - it.quantity } else q),
                  nextId := s.nextId + 1 }
            processLines s1 orderId rest

/-- The commit at the end of `Orders.post` succeeds only if every pending
row satisfies its NOT NULL constraints: `orders.total_amount` and
`order_items.price_at_time` are both `nullable=False` (models.py lines 155
and 167). -/
def orderCommitOk (s : DB) : Bool :=
  s.orders.all (fun o => o.totalAmount.isSome) &&
    s.orderItems.all (fun oi => oi.priceAtTime.isSome)

/-- `Orders.post` (controllers.py lines 665-711).

The empty-items 400 and missing-user 404 are raised outside any `try:` and
surface unchanged.  The controller then constructs
`OrderModel(user_id=args['user_id'])` — never assigning `total_amount`,
which is `nullable=False` — and calls `db.session.flush()`; the INSERT
therefore violates the NOT NULL constraint and raises an uncaught
`IntegrityError`, surfacing as HTTP 500 with the transaction rolled back.
The line loop and the final commit are only reachable were that flush to
succeed, i.e. were `total_amount` non-NULL; the model keeps them in place
behind exactly that (never-satisfied) constraint check.  Any abort raised
in the loop follows an explicit rollback, restoring the pre-request state. -/
def ordersPost (s : DB) (uid : Nat) (items : List OrderReqItem) : OrdersPostResult × DB :=
  if items.isEmpty then ({ status := 400, orderId := none }, s)
  else
    match findUser s uid with
    | none => ({ status := 404, orderId := none }, s)
    | some _ =>
        let order : Order :=
          { id := s.nextId, userId := uid, totalAmount := none, status := "pending" }
        if order.totalAmount.isSome then
          -- unreachable: `total_amount` is never assigned, the flush fails
          let s0 := { s with orders := s.orders ++ [order], nextId := s.nextId + 1 }
          match processLines s0 order.id items with
          | Except.error st => ({ status := st, orderId := none }, s)
          | Except.ok s1 =>
              if orderCommitOk s1 then ({ status := 201, orderId := some order.id }, s1)
              else ({ status := 500, orderId := none }, s)
        else ({ status := 500, orderId := none }, s)

/-- A cart or order operation of the HTTP surface, for stating invariants
over arbitrary operation sequences. -/
inductive StoreOp where
  | getCart (uid : Nat)
  | addCart (uid : Nat) (args : CartPostArgs)
  | putCart (uid pid : Nat) (q : Int)
  | delCart (uid : Nat) (pid : Option Nat)
  | createOrder (uid : Nat) (items : List OrderReqItem)
deriving DecidableEq

/-- The database state after one cart/order operation. -/
def applyOp (s : DB) : StoreOp → DB
  | StoreOp.getCart uid => (cartGet s uid).2
  | StoreOp.addCart uid args => (cartPost s uid args).2
  | StoreOp.putCart uid pid q => (cartPut s uid pid q).2
  | StoreOp.delCart uid pid => (cartDelete s uid pid).2
  | StoreOp.createOrder uid items => (ordersPost s uid items).2

/-- The database state after a sequence of cart/order operations. -/
def applyOps (ops : List StoreOp) (s : DB) : DB :=
  ops.foldl applyOp s

/-- The seed data of the repository test suite (`init_database` in
test_main.py): two users, two categories, three products in category 1, and
two cart rows for user 2. -/
def fixtureDB : DB :=
  { users :=
      [{ id := 1, username := "testuser1", email := "test1@example.com",
         password := hashPassword "password123" },
       { id := 2, username := "john_doe", email := "john@example.com",
         password := hashPassword "secure123" }],
    categories :=
      [{ id := 1, name := "Electronics", description := some "Electronic devices and accessories" },
       { id := 2, name := "Sports", description := some "Sports equipment and accessories" }],
    products :=
      [{ id := 1, name := "Smartphone", price := 69999 / 100, stock := 50, categoryId := some 1 },
       { id := 2, name := "Laptop", price := 149999 / 100, stock := 25, categoryId := some 1 },
       { id := 3, name := "Headphones", price := 149999 / 100, stock := 5, categoryId := some 1 }],
    cartItems :=
      [{ id := 1, userId := 2, productId := 1, quantity := 2 },
       { id := 2, userId := 2, productId := 2, quantity := 1 }],
    orders := [],
    orderItems := [],
    nextId := 10 }

/-- `fixtureDB` extended with one committed order owned by user 1 (orders
can exist in the store even though `Orders.post` cannot create them; the
test fixture inserts rows directly). -/
def fixtureWithOrder : DB :=
  { fixtureDB with
      orders := [{ id := 5, userId := 1, totalAmount := some 10, status := "pending" }] }

/-- A user whose only cart row asks for quantity 5 of a product with only
3 units in stock: the state exercising the read-path reconciliation. -/
def lowStockDB : DB :=
  { users := [{ id := 1, username := "alice", email := "alice@example.com",
                password := hashPassword "password1" }],
    categories := [{ id := 1, name := "Misc", description := none }],
    products := [{ id := 1, name := "Widget", price := 10, stock := 3, categoryId := some 1 }],
    cartItems := [{ id := 1, userId := 1, productId := 1, quantity := 5 }],
    orders := [],
    orderItems := [],
    nextId := 10 }

/-- A user with 20 distinct cart rows (the `MAX_CART_ITEMS` cap) plus one
product with stock, for exercising the cap logic. -/
def fullCartDB : DB :=
  { users := [{ id := 1, username := "bob", email := "bob@example.com",
                password := hashPassword "password2" }],
    categories := [{ id := 1, name := "Misc", description := none }],
    products := [{ id := 1, name := "Widget", price := 10, stock := 5, categoryId := some 1 }],
    cartItems := (List.range 20).map
      (fun i => { id := 100 + i, userId := 1, productId := 101 + i, quantity := 1 }),
    orders := [],
    orderItems := [],
    nextId := 200 }

/-- `fullCartDB` with an additional 21st row for (user 1, product 1), the
product that actually exists. -/
def fullCartDB2 : DB :=
  { fullCartDB with
      cartItems := fullCartDB.cartItems ++
        [{ id := 150, userId := 1, productId := 1, quantity := 1 }] }

/-- `lowStockDB` with the product fully out of stock, for the
zero-stock branch of `Cart.post`. -/
def zeroStockDB : DB :=
  { lowStockDB with
      products := [{ id := 1, name := "Widget", price := 10, stock := 0,
                     categoryId := some 1 }] }

/-- A state mixing valid and invalid cart rows for one user: row 1 is
valid, row 2 references a product that does not exist, row 3 asks for more
than the stock, and row 4 belongs to a different user. -/
def mixedCartDB : DB :=
  { users := [{ id := 1, username := "carol", email := "carol@example.com",
                password := hashPassword "password3" }],
    categories := [{ id := 1, name := "Misc", description := none }],
    products :=
      [{ id := 1, name := "Widget", price := 10, stock := 5, categoryId := some 1 },
       { id := 3, name := "Gadget", price := 7, stock := 1, categoryId := some 1 }],
    cartItems :=
      [{ id := 1, userId := 1, productId := 1, quantity := 2 },
       { id := 2, userId := 1, productId := 2, quantity := 1 },
       { id := 3, userId := 1, productId := 3, quantity := 4 },
       { id := 4, userId := 2, productId := 1, quantity := 1 }],
    orders := [],
    orderItems := [],
    nextId := 10 }

/-- A line of an order request is bad in the sense of the atomicity claim:
its product does not resolve, its quantity is non-positive, or the
product's stock is below the requested quantity. -/
def badLine (s : DB) (it : OrderReqItem) : Bool :=
  match findProduct s it.productId with
  | none => true
  | some p => it.quantity ≤ 0 || p.stock < it.quantity

/-- A concrete mixed sequence of cart and order operations, used to witness
the stock invariant. -/
def sampleOps : List StoreOp :=
  [StoreOp.addCart 1 { productId := 1, quantity := 2, replace := false },
   StoreOp.createOrder 1 [{ productId := 1, quantity := 2 }],
   StoreOp.getCart 1,
   StoreOp.putCart 1 1 3,
   StoreOp.delCart 1 none,
   StoreOp.createOrder 2 [{ productId := 2, quantity := 1 }]]


/-! ### General lemmas about the operations -/

/-- `Orders.post` never changes the committed database state: every request
either fails a validation outside the transaction or dies at the flush of
the NULL `total_amount`, after which the transaction is rolled back. -/
theorem ordersPost_snd (s : DB) (uid : Nat) (items : List OrderReqItem) :
    (ordersPost s uid items).2 = s := by
  unfold ordersPost
  split
  · rfl
  · split <;> rfl

/-- Every `Orders.post` request fails with an HTTP error status. -/
theorem ordersPost_status (s : DB) (uid : Nat) (items : List OrderReqItem) :
    400 ≤ (ordersPost s uid items).1.status := by
  unfold ordersPost
  split
  · show 400 ≤ 400
    decide
  · split
    · show 400 ≤ 404
      decide
    · show 400 ≤ 500
      decide

/-- `Cart.get` does not touch the products table. -/
theorem cartGet_snd_products (s : DB) (uid : Nat) :
    (cartGet s uid).2.products = s.products := by
  unfold cartGet
  split <;> rfl

/-- `Cart.post` does not touch the products table. -/
theorem cartPost_snd_products (s : DB) (uid : Nat) (args : CartPostArgs) :
    (cartPost s uid args).2.products = s.products := by
  unfold cartPost updateCartQuantity
  try dsimp only
  repeat' split
  all_goals rfl

/-- `Cart.put` does not touch the products table. -/
theorem cartPut_snd_products (s : DB) (uid pid : Nat) (q : Int) :
    (cartPut s uid pid q).2.products = s.products := by
  unfold cartPut updateCartQuantity
  try dsimp only
  repeat' split
  all_goals rfl

/-- `Cart.delete` does not touch the products table. -/
theorem cartDelete_snd_products (s : DB) (uid : Nat) (pid : Option Nat) :
    (cartDelete s uid pid).2.products = s.products := by
  unfold cartDelete
  try dsimp only
  repeat' split
  all_goals rfl

/-- No cart or order operation changes the products table: cart handlers
only write cart rows, and order creation always rolls back. -/
theorem applyOp_products (s : DB) (op : StoreOp) :
    (applyOp s op).products = s.products := by
  cases op with
  | getCart uid => exact cartGet_snd_products s uid
  | addCart uid args => exact cartPost_snd_products s uid args
  | putCart uid pid q => exact cartPut_snd_products s uid pid q
  | delCart uid pid => exact cartDelete_snd_products s uid pid
  | createOrder uid items => rw [applyOp, ordersPost_snd]

/-- The products table is invariant under any sequence of cart and order
operations. -/
theorem applyOps_products (ops : List StoreOp) (s : DB) :
    (applyOps ops s).products = s.products := by
  induction ops generalizing s with
  | nil => rfl
  | cons op rest ih =>
      calc (applyOps (op :: rest) s).products
          = (applyOps rest (applyOp s op)).products := rfl
        _ = (applyOp s op).products := ih (applyOp s op)
        _ = s.products := applyOp_products s op

/-! ### Claim theorems -/

/-- Claim C1, code bug: the spec and the repository tests
(`test_create_order_success`) require a successfully created order whose
`total_amount` equals the sum of `quantity * price_at_time`, but
`Orders.post` never assigns `total_amount` (nor `price_at_time`), both
`nullable=False`; the flush violates the NOT NULL constraint, so the very
request the tests expect to return 201 with `total_amount = 1399.98`
returns HTTP 500 and persists nothing. -/
theorem orders_post_cannot_create_order :
    (ordersPost fixtureDB 1 [{ productId := 1, quantity := 2 }]).1.status = 500 ∧
    (ordersPost fixtureDB 1 [{ productId := 1, quantity := 2 }]).2 = fixtureDB ∧
    (ordersPost fixtureDB 1 [{ productId := 1, quantity := 2 }]).2.orders = [] :=
  ⟨rfl, rfl, rfl⟩

/-- Claim C2: if any requested line is bad (missing product, non-positive
quantity, or stock below the quantity), the whole order request fails with
an error status and the database afterwards is exactly the initial one — in
particular no stock is decremented and no order or order-item rows exist. -/
theorem order_creation_atomic (s : DB) (uid : Nat) (items : List OrderReqItem)
    (h : ∃ it ∈ items, badLine s it = true) :
    400 ≤ (ordersPost s uid items).1.status ∧
    (ordersPost s uid items).2 = s ∧
    (ordersPost s uid items).2.products = s.products ∧
    (ordersPost s uid items).2.orders = s.orders ∧
    (ordersPost s uid items).2.orderItems = s.orderItems := by
  refine ⟨ordersPost_status s uid items, ordersPost_snd s uid items, ?_, ?_, ?_⟩ <;>
    rw [ordersPost_snd]

/-- Witness for `order_creation_atomic`: a request whose single line names
the nonexistent product 999. -/
theorem order_creation_atomic_witness :
    (∃ it ∈ [({ productId := 999, quantity := 1 } : OrderReqItem)],
        badLine fixtureDB it = true) ∧
    400 ≤ (ordersPost fixtureDB 1 [{ productId := 999, quantity := 1 }]).1.status ∧
    (ordersPost fixtureDB 1 [{ productId := 999, quantity := 1 }]).2 = fixtureDB :=
  ⟨by decide, (order_creation_atomic fixtureDB 1 _ (by decide)).1,
    (order_creation_atomic fixtureDB 1 _ (by decide)).2.1⟩

/-- Claim C3: for every product, `stock ≥ 0` is preserved by any sequence
of cart and order operations (the cart handlers never write the products
table, and order creation always rolls back before decrementing). -/
theorem stock_nonneg_invariant (ops : List StoreOp) (s : DB)
    (h : ∀ p ∈ s.products, 0 ≤ p.stock) :
    ∀ p ∈ (applyOps ops s).products, 0 ≤ p.stock := by
  intro p hp
  exact h p (by rwa [applyOps_products] at hp)

/-- Witness for `stock_nonneg_invariant` on the test fixture and a mixed
concrete operation sequence. -/
theorem stock_nonneg_invariant_witness :
    (∀ p ∈ fixtureDB.products, 0 ≤ p.stock) ∧
    (∀ p ∈ (applyOps sampleOps fixtureDB).products, 0 ≤ p.stock) :=
  ⟨by decide, stock_nonneg_invariant sampleOps fixtureDB (by decide)⟩

/-- Claim C4 counterexample: in `lowStockDB` user 1 has one cart row asking
for quantity 5 of product 1, whose current stock is 3.  The claim predicts
the read returns the item with its quantity reduced to 3 (kept, not
dropped); `Cart.get` instead deletes the row entirely, because `is_valid`
is already false when stock < quantity, so the row joins `removed_items`
and the quantity-adjustment branch never runs. -/
theorem cart_read_drops_low_stock_item :
    lowStockDB.cartItems = [{ id := 1, userId := 1, productId := 1, quantity := 5 }] ∧
    (findProduct lowStockDB 1).map Product.stock = some 3 ∧
    (cartGet lowStockDB 1).1.status = 200 ∧
    (cartGet lowStockDB 1).1.items = [] ∧
    (cartGet lowStockDB 1).2.cartItems = [] := by
  decide

/-- Claim C4 amended: on cart read, each item of the requesting user is
re-validated against current stock; an item whose product no longer exists
or whose recorded quantity exceeds the current stock is deleted (lazily, on
read) and the deletion is persisted, while every other row — including
other users' rows — survives verbatim; no quantity is ever silently
reduced, and the returned payload lists exactly the surviving rows of the
user. -/
theorem cart_read_reconciliation (s : DB) (uid : Nat) (u : User)
    (hu : findUser s uid = some u) :
    (∀ it ∈ s.cartItems, it.userId = uid → itemIsValid s it = false →
        it ∉ (cartGet s uid).2.cartItems) ∧
    (∀ it ∈ s.cartItems, (it.userId ≠ uid ∨ itemIsValid s it = true) →
        it ∈ (cartGet s uid).2.cartItems) ∧
    (∀ it ∈ (cartGet s uid).2.cartItems, it ∈ s.cartItems) ∧
    (cartGet s uid).1.items =
      (s.cartItems.filter (fun it => itemIsValid s it && it.userId == uid)).map
        (cartLineOf s) := by
  have hsnd : (cartGet s uid).2.cartItems
      = s.cartItems.filter (fun it => it.userId != uid || itemIsValid s it) := by
    unfold cartGet
    rw [hu]
  have hfst : (cartGet s uid).1.items
      = ((s.cartItems.filter (fun it => it.userId == uid)).filter
          (fun it => itemIsValid s it)).map (cartLineOf s) := by
    unfold cartGet
    rw [hu]
  refine ⟨?_, ?_, ?_, ?_⟩
  · intro it hmem huid hval
    rw [hsnd, List.mem_filter]
    intro hcontra
    rw [huid, hval] at hcontra
    simp at hcontra
  · intro it hmem hcond
    rw [hsnd, List.mem_filter]
    refine ⟨hmem, ?_⟩
    rw [Bool.or_eq_true, bne_iff_ne]
    exact hcond.imp id (fun h => h)
  · intro it hmem
    rw [hsnd] at hmem
    exact List.mem_of_mem_filter hmem
  · rw [hfst, List.filter_filter]

/-- Witness for `cart_read_reconciliation` on `mixedCartDB`: the
stock-exceeded row 3 is deleted; the valid row 1 and the other user's row 4
survive. -/
theorem cart_read_reconciliation_witness :
    ({ id := 3, userId := 1, productId := 3, quantity := 4 } : CartItem) ∉
      (cartGet mixedCartDB 1).2.cartItems ∧
    ({ id := 1, userId := 1, productId := 1, quantity := 2 } : CartItem) ∈
      (cartGet mixedCartDB 1).2.cartItems ∧
    ({ id := 4, userId := 2, productId := 1, quantity := 1 } : CartItem) ∈
      (cartGet mixedCartDB 1).2.cartItems :=
  ⟨(cart_read_reconciliation mixedCartDB 1
      { id := 1, username := "carol", email := "carol@example.com",
        password := hashPassword "password3" } (by decide)).1
      _ (by decide) (by decide) (by decide),
   (cart_read_reconciliation mixedCartDB 1
      { id := 1, username := "carol", email := "carol@example.com",
        password := hashPassword "password3" } (by decide)).2.1
      _ (by decide) (Or.inr (by decide)),
   (cart_read_reconciliation mixedCartDB 1
      { id := 1, username := "carol", email := "carol@example.com",
        password := hashPassword "password3" } (by decide)).2.1
      _ (by decide) (Or.inl (by decide))⟩

/-- Claim C5, code bug: the spec requires step 6 of order creation to clear
the ordering user's cart, but `Orders.post` contains no cart-clearing step
at all (only the unused CLI variant `StoreManagementSystem.create_order` in
main.py clears it), and no order creation can even succeed (see C1): after
user 2's order request both of their cart rows are still present and the
request has failed with 500. -/
theorem orders_post_never_clears_cart :
    (ordersPost fixtureDB 2 [{ productId := 1, quantity := 1 }]).1.status = 500 ∧
    ((ordersPost fixtureDB 2 [{ productId := 1, quantity := 1 }]).2.cartItems.filter
        (fun c => c.userId == 2)).length = 2 :=
  ⟨rfl, rfl⟩

/-- Claim C6, code bug: the claim (and the repository test
`test_add_nonexistent_product`) require HTTP 404 when the user or product
is missing, but every `abort` in `Cart.post` is raised inside the `try:`
whose blanket `except Exception` handler converts it to HTTP 500: a
missing user (999), a missing product (999) and a zero-stock product all
surface as 500, with the database unchanged. -/
theorem cart_add_aborts_surface_as_500 :
    (cartPost fixtureDB 999 { productId := 1, quantity := 1, replace := false }).1.status = 500 ∧
    (cartPost fixtureDB 1 { productId := 999, quantity := 1, replace := false }).1.status = 500 ∧
    (cartPost zeroStockDB 1 { productId := 1, quantity := 1, replace := false }).1.status = 500 ∧
    (cartPost fixtureDB 1 { productId := 999, quantity := 1, replace := false }).2 = fixtureDB :=
  ⟨rfl, rfl, rfl, rfl⟩

/-- Claim C7 counterexample: user 2 already holds quantity 2 of product 1;
adding 98 more without the replace flag makes 100 > 99.  The claim says
this is rejected with a validation error — HTTP 400 in the spec's error
taxonomy — but the `ValueError` abort is swallowed by the blanket
`except Exception` handler and the request fails with HTTP 500 (the row is
indeed left unchanged). -/
theorem cart_add_overflow_not_400 :
    (cartPost fixtureDB 2 { productId := 1, quantity := 98, replace := false }).1.status = 500 ∧
    (cartPost fixtureDB 2 { productId := 1, quantity := 98, replace := false }).1.status ≠ 400 ∧
    (cartPost fixtureDB 2 { productId := 1, quantity := 98, replace := false }).2 = fixtureDB :=
  ⟨rfl, by decide, rfl⟩

/-- Auxiliary: `find?` commutes with a map that preserves the predicate. -/
theorem find?_map_of_pred {α : Type} (l : List α) (f : α → α) (p : α → Bool)
    (hp : ∀ a, p (f a) = p a) : (l.map f).find? p = (l.find? p).map f := by
  induction l with
  | nil => rfl
  | cons a t ih =>
      cases h : p a with
      | true =>
          rw [List.find?_cons_of_pos _ h, List.map_cons,
            List.find?_cons_of_pos _ ((hp a).trans h)]
          rfl
      | false =>
          rw [List.find?_cons_of_neg _ (by simp [h]), List.map_cons,
            List.find?_cons_of_neg _ (by simp [hp a, h]), ih]

/-- Persisting a new quantity through the session leaves the row findable
under its (user, product) key, with only the quantity changed. -/
theorem findCartItem_update (s : DB) (uid pid : Nat) (it : CartItem) (q : Int)
    (hfind : findCartItem s uid pid = some it) :
    findCartItem (updateCartQuantity s it.id q) uid pid =
      some { it with quantity := q } := by
  unfold findCartItem updateCartQuantity
  unfold findCartItem at hfind
  rw [find?_map_of_pred _ _ _ ?hp]
  case hp =>
    intro a
    by_cases h : a.id = it.id <;> simp [h]
  rw [hfind]
  simp

/-- Appending a fresh row to a cart with no row for the key makes that row
the `find?` result. -/
theorem findCartItem_append (s : DB) (uid pid : Nat) (x : CartItem)
    (hnone : findCartItem s uid pid = none)
    (hx : (x.userId == uid && x.productId == pid) = true) :
    findCartItem { s with cartItems := s.cartItems ++ [x], nextId := s.nextId + 1 }
      uid pid = some x := by
  unfold findCartItem at *
  rw [List.find?_append, hnone]
  simp [List.find?, hx]

/-- The existing-row path of `Cart.post` with an in-range combined
quantity: row updated, HTTP 200. -/
theorem cartPost_update_ok (s : DB) (uid : Nat) (args : CartPostArgs)
    (u : User) (p : Product) (it : CartItem)
    (hu : findUser s uid = some u) (hp : findProduct s args.productId = some p)
    (hst : 0 < p.stock) (hit : findCartItem s uid args.productId = some it)
    (hq : cartQuantityValid
        (if args.replace then args.quantity else it.quantity + args.quantity) = true) :
    (cartPost s uid args).1.status = 200 ∧
    (cartPost s uid args).1.quantity =
      some (if args.replace then args.quantity else it.quantity + args.quantity) ∧
    (cartPost s uid args).2 =
      updateCartQuantity s it.id
        (if args.replace then args.quantity else it.quantity + args.quantity) := by
  have hns : ¬ p.stock ≤ 0 := not_le.mpr hst
  unfold cartPost
  simp only [hu, hp, hit, hns, if_false]
  simp [hq]

/-- The existing-row path of `Cart.post` with an out-of-range combined
quantity: rejected (HTTP 500 after the swallowed ValueError abort), state
unchanged. -/
theorem cartPost_update_reject (s : DB) (uid : Nat) (args : CartPostArgs)
    (u : User) (p : Product) (it : CartItem)
    (hu : findUser s uid = some u) (hp : findProduct s args.productId = some p)
    (hst : 0 < p.stock) (hit : findCartItem s uid args.productId = some it)
    (hq : cartQuantityValid
        (if args.replace then args.quantity else it.quantity + args.quantity) = false) :
    (cartPost s uid args).1.status = 500 ∧ (cartPost s uid args).2 = s := by
  have hns : ¬ p.stock ≤ 0 := not_le.mpr hst
  unfold cartPost
  simp only [hu, hp, hit, hns, if_false]
  simp [hq]

/-- The new-row path of `Cart.post` under the cap with an in-range
quantity: row created with the fresh id, HTTP 201. -/
theorem cartPost_create_ok (s : DB) (uid : Nat) (args : CartPostArgs)
    (u : User) (p : Product)
    (hu : findUser s uid = some u) (hp : findProduct s args.productId = some p)
    (hst : 0 < p.stock) (hit : findCartItem s uid args.productId = none)
    (hcap : (s.cartItems.filter (fun c => c.userId == uid)).length < 20)
    (hq : cartQuantityValid args.quantity = true) :
    (cartPost s uid args).1.status = 201 ∧
    (cartPost s uid args).1.quantity = some args.quantity ∧
    (cartPost s uid args).2 =
      { s with
          cartItems := s.cartItems ++
            [{ id := s.nextId, userId := uid, productId := args.productId,
               quantity := args.quantity }],
          nextId := s.nextId + 1 } := by
  have hns : ¬ p.stock ≤ 0 := not_le.mpr hst
  have hcap2 : ¬ 20 ≤ (s.cartItems.filter (fun c => c.userId == uid)).length :=
    not_le.mpr hcap
  unfold cartPost
  simp only [hu, hp, hit, hns, if_false]
  simp [hcap2, hq]

/-- The new-row path of `Cart.post` at or over the cap: rejected, state
unchanged. -/
theorem cartPost_cap_reject (s : DB) (uid : Nat) (args : CartPostArgs)
    (u : User) (p : Product)
    (hu : findUser s uid = some u) (hp : findProduct s args.productId = some p)
    (hst : 0 < p.stock) (hit : findCartItem s uid args.productId = none)
    (hcap : 20 ≤ (s.cartItems.filter (fun c => c.userId == uid)).length) :
    (cartPost s uid args).1.status = 500 ∧ (cartPost s uid args).2 = s := by
  have hns : ¬ p.stock ≤ 0 := not_le.mpr hst
  unfold cartPost
  simp only [hu, hp, hit, hns, if_false]
  simp [hcap]

/-- Claim C7 amended: when a cart-add targets an existing (user, product)
row, the new quantity is `quantity` under the replace flag and
`existing.quantity + quantity` otherwise; an in-range result is persisted
with HTTP 200, an out-of-range result is rejected — never silently clamped,
the row unchanged — though the rejection surfaces as HTTP 500 (the
ValueError abort is swallowed by the blanket except handler) rather than a
400 validation error; a genuinely new row is created with HTTP 201; and two
adds of quantity 1 for (user 1, product 1) yield a single row of
quantity 2. -/
theorem cart_add_update_semantics :
    (∀ s uid args u p it, findUser s uid = some u →
        findProduct s args.productId = some p → 0 < p.stock →
        findCartItem s uid args.productId = some it →
        (cartQuantityValid
            (if args.replace then args.quantity else it.quantity + args.quantity) = true →
          (cartPost s uid args).1.status = 200 ∧
          (cartPost s uid args).1.quantity =
            some (if args.replace then args.quantity else it.quantity + args.quantity) ∧
          findCartItem (cartPost s uid args).2 uid args.productId =
            some { it with quantity :=
              if args.replace then args.quantity else it.quantity + args.quantity }) ∧
        (cartQuantityValid
            (if args.replace then args.quantity else it.quantity + args.quantity) = false →
          (cartPost s uid args).1.status = 500 ∧ (cartPost s uid args).2 = s)) ∧
    (∀ s uid args u p, findUser s uid = some u →
        findProduct s args.productId = some p → 0 < p.stock →
        findCartItem s uid args.productId = none →
        (s.cartItems.filter (fun c => c.userId == uid)).length < 20 →
        cartQuantityValid args.quantity = true →
        (cartPost s uid args).1.status = 201 ∧
        findCartItem (cartPost s uid args).2 uid args.productId =
          some { id := s.nextId, userId := uid, productId := args.productId,
                 quantity := args.quantity }) ∧
    ((cartPost fixtureDB 1 { productId := 1, quantity := 1, replace := false }).1.status = 201 ∧
     (cartPost (cartPost fixtureDB 1 { productId := 1, quantity := 1, replace := false }).2 1
         { productId := 1, quantity := 1, replace := false }).1.status = 200 ∧
     (cartPost (cartPost fixtureDB 1 { productId := 1, quantity := 1, replace := false }).2 1
         { productId := 1, quantity := 1, replace := false }).1.quantity = some 2 ∧
     ((cartPost (cartPost fixtureDB 1 { productId := 1, quantity := 1, replace := false }).2 1
         { productId := 1, quantity := 1, replace := false }).2.cartItems.filter
        (fun c => c.userId == 1 && c.productId == 1)).length = 1) := by
  refine ⟨?_, ?_, rfl, rfl, rfl, rfl⟩
  · intro s uid args u p it hu hp hst hit
    constructor
    · intro hq
      obtain ⟨h1, h2, h3⟩ := cartPost_update_ok s uid args u p it hu hp hst hit hq
      refine ⟨h1, h2, ?_⟩
      rw [h3]
      exact findCartItem_update s uid args.productId it _ hit
    · intro hq
      exact cartPost_update_reject s uid args u p it hu hp hst hit hq
  · intro s uid args u p hu hp hst hit hcap hq
    obtain ⟨h1, _, h3⟩ := cartPost_create_ok s uid args u p hu hp hst hit hcap hq
    refine ⟨h1, ?_⟩
    rw [h3]
    exact findCartItem_append s uid args.productId _ hit (by simp)

/-- Witness for `cart_add_update_semantics`: the three quantified parts
applied at concrete inputs — accumulate 2+1 for user 2 (200), overflow
2+98 for user 2 (500, unchanged), and a fresh row for user 1 (201). -/
theorem cart_add_update_semantics_witness :
    ((cartPost fixtureDB 2 { productId := 1, quantity := 1, replace := false }).1.status = 200 ∧
      (cartPost fixtureDB 2 { productId := 1, quantity := 1, replace := false }).1.quantity =
        some 3) ∧
    ((cartPost fixtureDB 2 { productId := 1, quantity := 98, replace := false }).1.status = 500 ∧
      (cartPost fixtureDB 2 { productId := 1, quantity := 98, replace := false }).2 = fixtureDB) ∧
    (cartPost fixtureDB 1 { productId := 2, quantity := 5, replace := false }).1.status = 201 := by
  have hupd := (cart_add_update_semantics.1 fixtureDB 2
    { productId := 1, quantity := 1, replace := false }
    { id := 2, username := "john_doe", email := "john@example.com",
      password := hashPassword "secure123" }
    { id := 1, name := "Smartphone", price := 69999 / 100, stock := 50, categoryId := some 1 }
    { id := 1, userId := 2, productId := 1, quantity := 2 }
    rfl rfl (by decide) rfl).1 (by decide)
  have hovf := (cart_add_update_semantics.1 fixtureDB 2
    { productId := 1, quantity := 98, replace := false }
    { id := 2, username := "john_doe", email := "john@example.com",
      password := hashPassword "secure123" }
    { id := 1, name := "Smartphone", price := 69999 / 100, stock := 50, categoryId := some 1 }
    { id := 1, userId := 2, productId := 1, quantity := 2 }
    rfl rfl (by decide) rfl).2 (by decide)
  have hnew := cart_add_update_semantics.2.1 fixtureDB 1
    { productId := 2, quantity := 5, replace := false }
    { id := 1, username := "testuser1", email := "test1@example.com",
      password := hashPassword "password123" }
    { id := 2, name := "Laptop", price := 149999 / 100, stock := 25, categoryId := some 1 }
    rfl rfl (by decide) rfl (by decide) (by decide)
  exact ⟨⟨hupd.1, hupd.2.1⟩, hovf, hnew.1⟩

/-- Claim C9: the 20-distinct-rows cap of `Cart.post` fires only on the
path that would create a new (user, product) row — at 20 or more existing
rows the add is rejected and nothing is persisted — while an add that
targets an existing row succeeds with HTTP 200 no matter how many distinct
rows the cart already holds (no cap hypothesis is needed). -/
theorem cart_cap_only_for_new_rows :
    (∀ s uid args u p, findUser s uid = some u →
        findProduct s args.productId = some p → 0 < p.stock →
        findCartItem s uid args.productId = none →
        20 ≤ (s.cartItems.filter (fun c => c.userId == uid)).length →
        (cartPost s uid args).1.status = 500 ∧ (cartPost s uid args).2 = s) ∧
    (∀ s uid args u p it, findUser s uid = some u →
        findProduct s args.productId = some p → 0 < p.stock →
        findCartItem s uid args.productId = some it →
        cartQuantityValid
          (if args.replace then args.quantity else it.quantity + args.quantity) = true →
        (cartPost s uid args).1.status = 200) := by
  constructor
  · intro s uid args u p hu hp hst hit hcap
    exact cartPost_cap_reject s uid args u p hu hp hst hit hcap
  · intro s uid args u p it hu hp hst hit hq
    exact (cartPost_update_ok s uid args u p it hu hp hst hit hq).1

/-- Witness for `cart_cap_only_for_new_rows`: in `fullCartDB` (20 rows) a
new-row add is rejected with nothing persisted, while in `fullCartDB2`
(21 rows, one of them for the requested product) the add succeeds. -/
theorem cart_cap_only_for_new_rows_witness :
    ((cartPost fullCartDB 1 { productId := 1, quantity := 1, replace := false }).1.status = 500 ∧
      (cartPost fullCartDB 1 { productId := 1, quantity := 1, replace := false }).2 = fullCartDB) ∧
    (cartPost fullCartDB2 1 { productId := 1, quantity := 1, replace := false }).1.status = 200 :=
  ⟨cart_cap_only_for_new_rows.1 fullCartDB 1
      { productId := 1, quantity := 1, replace := false }
      { id := 1, username := "bob", email := "bob@example.com",
        password := hashPassword "password2" }
      { id := 1, name := "Widget", price := 10, stock := 5, categoryId := some 1 }
      (by decide) (by decide) (by decide) (by decide) (by decide),
   cart_cap_only_for_new_rows.2 fullCartDB2 1
      { productId := 1, quantity := 1, replace := false }
      { id := 1, username := "bob", email := "bob@example.com",
        password := hashPassword "password2" }
      { id := 1, name := "Widget", price := 10, stock := 5, categoryId := some 1 }
      { id := 150, userId := 1, productId := 1, quantity := 1 }
      (by decide) (by decide) (by decide) (by decide) (by decide)⟩

/-- Claim C8 counterexample: in `fixtureWithOrder` user 1 owns an order;
the claim says deleting that user is rejected with HTTP 400, but the
`abort(400)` is raised inside the `try:` of `Users.delete` and its blanket
`except Exception` handler re-raises it as HTTP 500 (the user is indeed
not deleted; the category half of the claim does return a genuine 400
because its abort sits outside any `try:`). -/
theorem user_delete_with_orders_not_400 :
    (usersDelete fixtureWithOrder 1).1.status = 500 ∧
    (usersDelete fixtureWithOrder 1).1.status ≠ 400 ∧
    (usersDelete fixtureWithOrder 1).2 = fixtureWithOrder :=
  ⟨rfl, by decide, rfl⟩

/-- Claim C8 amended: deleting a category that has associated products is
rejected with HTTP 400 and the category is kept; deleting a user that owns
any orders is likewise rejected with the user kept, but the rejection
surfaces as HTTP 500 instead of 400, because the user-deletion abort is
raised inside a `try:` whose blanket except handler rewrites it. -/
theorem delete_guards (s : DB) (cid uid : Nat) (c : Category) (u : User)
    (hc : findCategory s cid = some c)
    (hpr : (s.products.filter (fun p => p.categoryId == some cid)).isEmpty = false)
    (hu : findUser s uid = some u)
    (ho : (s.orders.filter (fun o => o.userId == uid)).isEmpty = false) :
    (categoriesDelete s cid).1.status = 400 ∧ (categoriesDelete s cid).2 = s ∧
    (usersDelete s uid).1.status = 500 ∧ (usersDelete s uid).2 = s := by
  unfold categoriesDelete usersDelete
  simp [hc, hu, hpr, ho]

/-- Witness for `delete_guards` on `fixtureWithOrder`: category 1 owns the
three products, user 1 owns order 5. -/
theorem delete_guards_witness :
    ((categoriesDelete fixtureWithOrder 1).1.status = 400 ∧
      (categoriesDelete fixtureWithOrder 1).2 = fixtureWithOrder) ∧
    ((usersDelete fixtureWithOrder 1).1.status = 500 ∧
      (usersDelete fixtureWithOrder 1).2 = fixtureWithOrder) := by
  have h := delete_guards fixtureWithOrder 1 1
    { id := 1, name := "Electronics",
      description := some "Electronic devices and accessories" }
    { id := 1, username := "testuser1", email := "test1@example.com",
      password := hashPassword "password123" }
    rfl (by decide) rfl (by decide)
  exact ⟨⟨h.1, h.2.1⟩, ⟨h.2.2.1, h.2.2.2⟩⟩

/-- Claim C10 counterexample: the claim says a user update with a password
shorter than 6 characters is rejected with a validation error (HTTP 400,
as on the creation path, also asserted by the source's own
`abort(400, ...)`), but the abort is raised inside the `try:` of
`Users.put` and surfaces as HTTP 500; nothing is persisted either way. -/
theorem user_update_short_password_not_400 :
    (usersPut fixtureDB 1
        { username := none, email := none, password := some "12345" }).1.status = 500 ∧
    (usersPut fixtureDB 1
        { username := none, email := none, password := some "12345" }).1.status ≠ 400 ∧
    (usersPut fixtureDB 1
        { username := none, email := none, password := some "12345" }).2 = fixtureDB ∧
    (usersPost fixtureDB
        { username := "frank", email := "frank@example.com",
          password := "12345" }).1.status = 400 :=
  ⟨rfl, by decide, rfl, rfl⟩

/-- Claim C10 amended: user creation rejects any password shorter than 6
characters with HTTP 400 before persisting anything (whatever the other
fields contain, the request answers 400 and the state is unchanged), and a
user update that provides (in the Python truthy sense) a password shorter
than 6 characters always fails with nothing persisted — though that
failure surfaces as HTTP 500 rather than 400. -/
theorem password_minimum_length :
    (∀ s args, args.password.length < 6 →
        (usersPost s args).1.status = 400 ∧ (usersPost s args).2 = s) ∧
    (∀ s uid args u pw, findUser s uid = some u →
        strOpt args.password = some pw → pw.length < 6 →
        (usersPut s uid args).1.status = 500 ∧ (usersPut s uid args).2 = s) := by
  constructor
  · intro s args h
    unfold usersPost
    repeat' split
    all_goals first
      | exact ⟨rfl, rfl⟩
      | exact absurd h (by assumption)
  · intro s uid args u pw hu hpw hlen
    have hbody : ∀ u2, usersPutBody s uid u args ≠ Except.ok u2 := by
      intro u2 hok
      unfold usersPutBody at hok
      cases h1 : userPutUsername s uid u args with
      | error st =>
          simp only [h1] at hok
          exact Except.noConfusion hok
      | ok u1 =>
          simp only [h1] at hok
          cases h2 : userPutEmail s uid u1 args with
          | error st =>
              simp only [h2] at hok
              exact Except.noConfusion hok
          | ok u3 =>
              simp only [h2] at hok
              unfold userPutPassword at hok
              simp only [hpw, if_pos hlen] at hok
              exact Except.noConfusion hok
    unfold usersPut
    simp only [hu]
    cases hb : usersPutBody s uid u args with
    | error st => exact ⟨rfl, rfl⟩
    | ok u2 => exact absurd hb (hbody u2)

/-- Witness for `password_minimum_length`: concrete short-password create
and update requests against the fixture. -/
theorem password_minimum_length_witness :
    ((usersPost fixtureDB
        { username := "grace", email := "grace@example.com",
          password := "123" }).1.status = 400 ∧
      (usersPost fixtureDB
        { username := "grace", email := "grace@example.com",
          password := "123" }).2 = fixtureDB) ∧
    ((usersPut fixtureDB 2
        { username := none, email := none, password := some "abc" }).1.status = 500 ∧
      (usersPut fixtureDB 2
        { username := none, email := none, password := some "abc" }).2 = fixtureDB) :=
  ⟨password_minimum_length.1 fixtureDB
      { username := "grace", email := "grace@example.com", password := "123" }
      (by decide),
   password_minimum_length.2 fixtureDB 2
      { username := none, email := none, password := some "abc" }
      { id := 2, username := "john_doe", email := "john@example.com",
        password := hashPassword "secure123" }
      "abc" rfl (by decide) (by decide)⟩
